import Mathlib

/-!
Verification development for the entity identity and binding subsystem of
`ha_portainer_link` (`custom_components/ha_portainer_link/sensor.py`).

Python strings are modelled as `List Char`.  Python dictionaries that the code
reads with `.get` are modelled as structures with `Option` fields (a missing
key is `none`), or as association lists when the key set is open.  Fallible
API calls are modelled by explicit outcome types with an `err` constructor for
"the client raised an exception".
-/

namespace PortainerLink

/-- Python strings, modelled as lists of characters. -/
abbrev Str := List Char

/-- Python `s.strip(c)` for a single character: remove all leading and
trailing occurrences of `c`. -/
def pyStrip (c : Char) (s : Str) : Str :=
  ((s.dropWhile (· = c)).reverse.dropWhile (· = c)).reverse

/-- Python `s.rstrip(c)` for a single character: remove all trailing
occurrences of `c`. -/
def pyRStrip (c : Char) (s : Str) : Str :=
  (s.reverse.dropWhile (· = c)).reverse

/-- Python `s.replace(old, new)` where `old` and `new` are single characters:
replace every occurrence. -/
def pyReplaceChar (old new : Char) (s : Str) : Str :=
  s.map (fun c => if c = old then new else c)

/-- The `stack_info` dictionary produced by `get_container_stack_info`, as read
by `sensor.py`: keys `is_stack_container`, `stack_name`, `service_name`. -/
structure StackInfo where
  is_stack_container : Bool
  stack_name : Option Str
  service_name : Option Str
deriving DecidableEq

/-- Lines 14-19 of `_build_stable_unique_id`: the base name is
`f"{stack_name}_{service_name}"` for a stack container (with
`stack_info.get("stack_name", "unknown")` and
`stack_info.get("service_name", container_name)` defaults), else the
container's own name. -/
def deriveBaseName (si : StackInfo) (container_name : Str) : Str :=
  if si.is_stack_container then
    (si.stack_name.getD "unknown".toList) ++ "_".toList
      ++ (si.service_name.getD container_name)
  else
    container_name

/-- Line 21 of `sensor.py`:
`base.replace('-', '_').replace(' ', '_').replace('/', '_')`. -/
def sanitize (s : Str) : Str :=
  pyReplaceChar '/' '_' (pyReplaceChar ' ' '_' (pyReplaceChar '-' '_' s))

/-- `_build_stable_unique_id(entry_id, endpoint_id, container_name, stack_info,
suffix)` (lines 13-22):
`f"entry_{entry_id}_endpoint_{endpoint_id}_{sanitized}_{suffix}"`. -/
def buildStableUniqueId (entry_id endpoint_id container_name : Str)
    (stack_info : StackInfo) (suffix : Str) : Str :=
  "entry_".toList ++ entry_id ++ "_endpoint_".toList ++ endpoint_id
    ++ "_".toList ++ sanitize (deriveBaseName stack_info container_name)
    ++ "_".toList ++ suffix

/-- A container summary as returned by the `GET /containers/json` style
listing: the fields of the dictionary that `sensor.py` reads.  `Id` is an
`Option` because the code reads it with `container.get("Id")`. -/
structure Container where
  Id : Option Str
  Names : List Str
  Labels : List (Str × Str)
deriving DecidableEq

/-- Python `dict.get(key)` on a string-keyed dictionary modelled as an
association list. -/
def dictGet (d : List (Str × Str)) (k : Str) : Option Str :=
  (d.find? (fun kv => decide (kv.1 = k))).map (·.2)

/-- `container.get("Names", ["unknown"])[0].strip("/")` as in
`async_setup_entry` (lines 73 and 106). -/
def firstName (names : List Str) : Str :=
  match names with
  | [] => "unknown".toList
  | n :: _ => pyStrip '/' n

/-- The unique id an entity is constructed with in `async_setup_entry`:
`name = container.get("Names", ["unknown"])[0].strip("/")` followed by
`_build_stable_unique_id(entry_id, endpoint_id, name, stack_info, suffix)`. -/
def uniqueIdForContainer (entry_id endpoint_id : Str) (c : Container)
    (stack_info : StackInfo) (suffix : Str) : Str :=
  buildStableUniqueId entry_id endpoint_id (firstName c.Names) stack_info suffix

/-! ## BindingResolver (`_find_current_container_id`, `_ensure_container_bound`) -/

/-- Outcome of `api.get_containers(endpoint_id)`: either the live container
list, or the client raised an exception. -/
inductive ApiList where
  | ok (containers : List Container)
  | err
deriving DecidableEq

/-- Python truthiness of an optional string (`None` and `""` are falsy). -/
def pyTruthyStr (o : Option Str) : Bool :=
  match o with
  | none => false
  | some s => decide (s ≠ [])

/-- The label test of the stack branch of `_find_current_container_id`
(lines 154-156): `labels.get("com.docker.compose.project") == expected_stack
and labels.get("com.docker.compose.service") == expected_service`, where the
expected values are `stack_info.get("stack_name")` and
`stack_info.get("service_name")`.  Both sides are optional values, and Python
`None == None` is true. -/
def labelMatchB (si : StackInfo) (c : Container) : Bool :=
  decide (dictGet c.Labels "com.docker.compose.project".toList = si.stack_name)
    && decide (dictGet c.Labels "com.docker.compose.service".toList = si.service_name)

/-- The name test of the fallback loop of `_find_current_container_id`
(lines 159-165): skip a container with no names, else compare
`names[0].strip("/")` with `self._container_name`. -/
def nameMatchB (containerName : Str) (c : Container) : Bool :=
  match c.Names with
  | [] => false
  | n :: _ => decide (pyStrip '/' n = containerName)

/-- `_find_current_container_id` (lines 143-169).  The surrounding
`try/except` returns `None` when the client raised; `if not containers:
return None`; then for a stack container the label loop runs first and
`return container.get("Id")` on the first label match; in all cases the name
loop then returns `container.get("Id")` of the first name match, and the
function falls back to `None`. -/
def findCurrentContainerId (si : StackInfo) (containerName : Str)
    (res : ApiList) : Option Str :=
  match res with
  | .err => none
  | .ok containers =>
    if containers = [] then none
    else
      match (if si.is_stack_container then containers.find? (labelMatchB si) else none) with
      | some c => c.Id
      | none => (containers.find? (nameMatchB containerName)).bind (fun c => c.Id)

/-- A sensor state value (`self._state`): Home Assistant's `STATE_UNKNOWN`, a
number, or a string. -/
inductive PyVal where
  | unknown
  | num (q : ℚ)
  | str (s : Str)
deriving DecidableEq

/-- The mutable fields of a `BaseContainerSensor` entity (plus the
subclass-held `_state`), as set up in `BaseContainerSensor.__init__` and the
subclass constructors. -/
structure SensorState where
  container_name : Str
  container_id : Str
  endpoint_id : Str
  stack_info : StackInfo
  entry_id : Str
  attr_unique_id : Str
  sensor_state : PyVal
deriving DecidableEq

/-- The `"State"` sub-dictionary of an inspect result, as read by
`ContainerStatusSensor.async_update`. -/
structure StateDict where
  Status : Option Str
deriving DecidableEq

/-- The inspect result returned by `api.get_container_info`: the fields read
by `sensor.py`. -/
structure ContainerInfo where
  Id : Option Str
  State : Option StateDict
deriving DecidableEq

/-- Outcome of `api.get_container_info(endpoint_id, container_id)`: a
descriptor (possibly `None`), or the client raised an exception. -/
inductive ApiInfo where
  | ok (info : Option ContainerInfo)
  | err
deriving DecidableEq

/-- The staleness test of `_ensure_container_bound` (line 174):
`not info or not isinstance(info, dict) or not info.get("Id")`.  A `None`
descriptor, an empty dictionary, a missing `Id` and an empty-string `Id` are
all stale. -/
def infoLacksId (info : Option ContainerInfo) : Bool :=
  match info with
  | none => true
  | some i => !(pyTruthyStr i.Id)

/-- The re-resolution step shared by both branches of
`_ensure_container_bound` (lines 175-177 and 179-181):
`new_id = await self._find_current_container_id(); if new_id and
new_id != self._container_id: self._container_id = new_id`. -/
def resolveStep (st : SensorState) (listRes : ApiList) : SensorState :=
  match findCurrentContainerId st.stack_info st.container_name listRes with
  | none => st
  | some nid =>
    if nid ≠ [] ∧ nid ≠ st.container_id then { st with container_id := nid } else st

/-- `_ensure_container_bound` (lines 171-181): look the current id up
directly; if the lookup raised, or returned no descriptor containing a truthy
`Id`, re-resolve; otherwise do nothing. -/
def ensureContainerBound (st : SensorState) (infoRes : ApiInfo)
    (listRes : ApiList) : SensorState :=
  match infoRes with
  | .err => resolveStep st listRes
  | .ok info => if infoLacksId info then resolveStep st listRes else st

/-! ## Sensor refresh (`async_update` of the status and CPU sensors) -/

/-- `stats["cpu_stats"]["cpu_usage"]` as read by
`ContainerCPUSensor.async_update`. -/
structure CpuUsageDict where
  total_usage : Option Int
deriving DecidableEq

/-- `stats["cpu_stats"]` / `stats["precpu_stats"]` as read by
`ContainerCPUSensor.async_update`. -/
structure CpuStatsDict where
  cpu_usage : Option CpuUsageDict
  system_cpu_usage : Option Int
  online_cpus : Option Int
deriving DecidableEq

/-- The stats dictionary returned by `api.get_container_stats`: the fields
read by the CPU sensor.  Counter values are modelled as integers; the Python
float arithmetic on them is modelled over `ℚ`. -/
structure StatsDict where
  cpu_stats : Option CpuStatsDict
  precpu_stats : Option CpuStatsDict
deriving DecidableEq

/-- Outcome of `api.get_container_stats`: a stats dictionary (possibly
`None`, on which any subscript raises), or the client raised. -/
inductive ApiStats where
  | ok (stats : Option StatsDict)
  | err
deriving DecidableEq

/-- Python `round(x, 2)` (round half to even), modelled over `ℚ`. -/
def pyRound2 (q : ℚ) : ℚ :=
  let y : ℚ := q * 100
  let f : ℤ := ⌊y⌋
  let r : ℚ := y - f
  (if r < 1/2 then f
   else if 1/2 < r then f + 1
   else if f % 2 = 0 then f else f + 1) / 100

/-- The `try` body of `ContainerCPUSensor.async_update` (lines 260-274): each
bracket subscript raises `KeyError`/`TypeError` when the key is missing (all
caught by the `except`, which sets `STATE_UNKNOWN`); `cpu_count` is read with
defaulting `.get` calls; the usage is zero when `system_delta <= 0`. -/
def cpuComputedState (res : ApiStats) : PyVal :=
  match res with
  | .err => .unknown
  | .ok ostats =>
    let comp : Option ℚ := do
      let stats ← ostats
      let cs ← stats.cpu_stats
      let cu ← cs.cpu_usage
      let cpu_usage ← cu.total_usage
      let ps ← stats.precpu_stats
      let pu ← ps.cpu_usage
      let precpu_usage ← pu.total_usage
      let system_cpu ← cs.system_cpu_usage
      let pre_system_cpu ← ps.system_cpu_usage
      let cpu_delta : ℤ := cpu_usage - precpu_usage
      let system_delta : ℤ := system_cpu - pre_system_cpu
      let cpu_count : ℤ := (cs.online_cpus).getD 1
      let usage : ℚ :=
        if 0 < system_delta then (cpu_delta : ℚ) / (system_delta : ℚ) * cpu_count * 100
        else 0
      pure (pyRound2 usage)
    match comp with
    | none => .unknown
    | some v => .num v

/-- `ContainerCPUSensor.async_update` (lines 258-274): `_ensure_container_bound`
first (it never raises), then the guarded stats computation. -/
def cpuAsyncUpdate (st : SensorState) (infoRes : ApiInfo) (listRes : ApiList)
    (statsRes : ApiStats) : SensorState :=
  let st' := ensureContainerBound st infoRes listRes
  { st' with sensor_state := cpuComputedState statsRes }

/-- The state computed by `ContainerStatusSensor.async_update`
(lines 227-237) from the second `get_container_info` outcome:
`container_info.get("State", {}).get("Status", STATE_UNKNOWN)` when the
descriptor is truthy, `STATE_UNKNOWN` otherwise, and `STATE_UNKNOWN` when
anything raised. -/
def statusComputedState (infoRes : ApiInfo) : PyVal :=
  match infoRes with
  | .err => .unknown
  | .ok none => .unknown
  | .ok (some i) =>
    match i.State with
    | none => .unknown
    | some sd =>
      match sd.Status with
      | none => .unknown
      | some s => .str s

/-- `ContainerStatusSensor.async_update` (lines 227-237). -/
def statusAsyncUpdate (st : SensorState) (infoRes : ApiInfo) (listRes : ApiList)
    (infoRes2 : ApiInfo) : SensorState :=
  let st' := ensureContainerBound st infoRes listRes
  { st' with sensor_state := statusComputedState infoRes2 }

/-! ## RegistryMigrator (the migration loop of `async_setup_entry`, lines 70-103)

The persisted entity registry itself belongs to the host platform and is not
part of this repository.  It is modelled from the spec's collaborator
contract (§6: `find_record(domain, identifier) -> RegistryRecord | none`,
`rewrite_identifier(record, new_identifier) -> success|failure`) and §7(c):
a rewrite whose target identifier is already present fails and is skipped,
never overwriting an existing new-style record. -/

/-- Modelled from the spec: a persisted registry record — its unique
identifier, plus its other fields (friendly name and the like) opaquely, so
that "preserves the record's other fields" is expressible. -/
structure RegRecord where
  unique_id : Str
  attrs : Str
deriving DecidableEq

/-- Modelled from the spec: rewrite the identifier of the first record whose
identifier equals `o` to `n`, preserving its other fields. -/
def rewriteFirst (o n : Str) : List RegRecord → List RegRecord
  | [] => []
  | r :: rs =>
    if r.unique_id = o then { r with unique_id := n } :: rs
    else r :: rewriteFirst o n rs

/-- One candidate of the migration loop (lines 87-100): skip when
`old_uid == new_uid`; look up a record by the old identifier and skip when
none is found; rewrite it to the new identifier, a rewrite that would
duplicate an existing identifier failing (and being skipped, per the caught
exception of lines 96-100 and spec §7(c)). -/
def migrateStep (reg : List RegRecord) (p : Str × Str) : List RegRecord :=
  if p.1 = p.2 then reg
  else
    match reg.find? (fun r => decide (r.unique_id = p.1)) with
    | none => reg
    | some _ =>
      if reg.any (fun r => decide (r.unique_id = p.2)) then reg
      else rewriteFirst p.1 p.2 reg

/-- The whole migration pass over a list of `(old_uid, new_uid)` candidates,
processed in order. -/
def migrate (reg : List RegRecord) (pairs : List (Str × Str)) : List RegRecord :=
  pairs.foldl migrateStep reg

/-- The metric suffixes of the migration loop (lines 79-85). -/
def migSuffixes : List Str :=
  ["status".toList, "cpu_usage".toList, "memory_usage".toList,
   "uptime".toList, "image".toList]

/-- One discovered container as seen by the migration loop: its first name
(leading/trailing `/` stripped), its raw id, and its stack info. -/
structure MigItem where
  name : Str
  container_id : Str
  stack_info : StackInfo
deriving DecidableEq

/-- The legacy identifier of line 88:
`f"entry_{entry_id}_endpoint_{endpoint_id}_{container_id}_{suffix}"`. -/
def oldUid (entry_id endpoint_id container_id suffix : Str) : Str :=
  "entry_".toList ++ entry_id ++ "_endpoint_".toList ++ endpoint_id
    ++ "_".toList ++ container_id ++ "_".toList ++ suffix

/-- The `(old_uid, new_uid)` candidates generated by the nested loops of
lines 72-89: for every discovered container and every suffix. -/
def migrationPairs (entry_id endpoint_id : Str) (items : List MigItem) :
    List (Str × Str) :=
  items.flatMap (fun it =>
    migSuffixes.map (fun sfx =>
      (oldUid entry_id endpoint_id it.container_id sfx,
       buildStableUniqueId entry_id endpoint_id it.name it.stack_info sfx)))

/-- The migration pass of `async_setup_entry`, applied to a registry state. -/
def runMigration (reg : List RegRecord) (entry_id endpoint_id : Str)
    (items : List MigItem) : List RegRecord :=
  migrate reg (migrationPairs entry_id endpoint_id items)

/-- Some record of the registry carries the identifier `u`. -/
def occ (reg : List RegRecord) (u : Str) : Prop :=
  ∃ r ∈ reg, r.unique_id = u

/-- Non-interference of migration candidates: no processed candidate's new
identifier equals any candidate's old identifier.  (It holds in particular
whenever no raw container id string coincides with a sanitized base name.) -/
def PairsDisjoint (pairs : List (Str × Str)) : Prop :=
  ∀ p ∈ pairs, ∀ q ∈ pairs, p.1 ≠ p.2 → p.2 ≠ q.1

instance decPairsDisjoint (pairs : List (Str × Str)) :
    Decidable (PairsDisjoint pairs) :=
  inferInstanceAs (Decidable (∀ p ∈ pairs, ∀ q ∈ pairs, p.1 ≠ p.2 → p.2 ≠ q.1))

/-! ## Host display name and host hash (`_get_host_display_name`, `_get_host_hash`) -/

/-- Fuel-driven worker for Python `s.replace(pat, rep)`: scan left to right,
replacing non-overlapping occurrences.  The fuel is the length of the
remaining input, so it never runs out when `pat` is nonempty. -/
def pyReplaceAux (pat rep : Str) : Nat → Str → Str
  | 0, s => s
  | _ + 1, [] => []
  | fuel + 1, c :: rest =>
    if pat.isPrefixOf (c :: rest) then
      rep ++ pyReplaceAux pat rep fuel ((c :: rest).drop pat.length)
    else
      c :: pyReplaceAux pat rep fuel rest

/-- Python `s.replace(pat, rep)` for a nonempty pattern (both uses in
`_get_host_display_name` have nonempty patterns; for an empty pattern the
input is returned unchanged). -/
def pyReplace (pat rep s : Str) : Str :=
  if pat = [] then s else pyReplaceAux pat rep s.length s

/-- The port suffix list of line 28 of `_get_host_display_name`, in source
order. -/
def knownPorts : List Str :=
  [":9000".toList, ":9443".toList, ":80".toList, ":443".toList]

/-- The bare-number test of line 32:
`host.replace('.', '').replace('-', '').replace('_', '').isdigit()` —
single-character replaces with the empty string are filters, and Python
`isdigit` is true on a nonempty all-digit string.  (Python also accepts
non-ASCII Unicode digits; the model uses ASCII digits.) -/
def looksNumeric (host : Str) : Bool :=
  let t := host.filter (fun c => !(c = '.' || c = '-' || c = '_'))
  decide (t ≠ []) && t.all Char.isDigit

/-- Lines 26-27 of `_get_host_display_name`: strip the scheme by
`replace("https://", "http://").replace("http://", "")`, then `rstrip("/")`. -/
def schemeStripped (base_url : Str) : Str :=
  pyRStrip '/'
    (pyReplace "http://".toList [] (pyReplace "https://".toList "http://".toList base_url))

/-- The port loop of lines 28-30: each known port suffix stripped in turn
when the current remainder ends with it. -/
def portStripLoop (host : Str) : Str :=
  knownPorts.foldl
    (fun h p => if p.isSuffixOf h then h.take (h.length - p.length) else h) host

/-- Lines 32-39: the whole remainder when it is bare numeric, else the first
dot-separated label when there are at least two, else the whole remainder. -/
def classifyHost (host : Str) : Str :=
  if looksNumeric host then host
  else
    let parts := host.splitOn '.'
    if 2 ≤ parts.length then parts.headD [] else host

/-- `_get_host_display_name` (lines 24-39). -/
def getHostDisplayName (base_url : Str) : Str :=
  classifyHost (portStripLoop (schemeStripped base_url))

/-- Formalization of claim C10's reading of the port rule: strip at most ONE
known port from the end (the first of the fixed list that matches).  This
definition follows the claim's words and exists to be compared with
`getHostDisplayName`. -/
def claimPortStrip (host : Str) : Str :=
  match knownPorts.find? (fun p => p.isSuffixOf host) with
  | some p => host.take (host.length - p.length)
  | none => host

/-- The display-name pipeline as claim C10 states it (one port stripped). -/
def claimHostDisplayName (base_url : Str) : Str :=
  classifyHost (claimPortStrip (schemeStripped base_url))

/-- The port loop of lines 28-30 written as the amended claim reads it: the
four known ports tried in the fixed order, each stripped once if the current
remainder ends with it (so several may be stripped). -/
def amendedPortStrip (host : Str) : Str :=
  let h0 := host
  let h1 := if (":9000".toList).isSuffixOf h0 then
    h0.take (h0.length - (":9000".toList).length) else h0
  let h2 := if (":9443".toList).isSuffixOf h1 then
    h1.take (h1.length - (":9443".toList).length) else h1
  let h3 := if (":80".toList).isSuffixOf h2 then
    h2.take (h2.length - (":80".toList).length) else h2
  if (":443".toList).isSuffixOf h3 then
    h3.take (h3.length - (":443".toList).length) else h3

/-- The display-name pipeline as the amended claim describes it. -/
def amendedHostDisplayName (base_url : Str) : Str :=
  classifyHost (amendedPortStrip (schemeStripped base_url))

/-! ### MD5 (model of the external `hashlib.md5`, RFC 1321)

`_get_host_hash` calls the Python standard library's
`hashlib.md5(base_url.encode()).hexdigest()[:8]`.  `hashlib` is an external
collaborator; it is modelled here as the MD5 algorithm itself, over `Nat`
with explicit reduction mod `2^32`. -/

/-- UTF-8 encoding of one character (RFC 3629), as `str.encode()` produces. -/
def utf8EncodeChar (c : Char) : List Nat :=
  let n := c.toNat
  if n < 128 then [n]
  else if n < 2048 then [192 + n / 64, 128 + n % 64]
  else if n < 65536 then [224 + n / 4096, 128 + (n / 64) % 64, 128 + n % 64]
  else [240 + n / 262144, 128 + (n / 4096) % 64, 128 + (n / 64) % 64, 128 + n % 64]

/-- `base_url.encode()`: UTF-8 bytes of the string. -/
def utf8Encode (s : Str) : List Nat :=
  s.flatMap utf8EncodeChar

/-- The 32-bit modulus. -/
def mask32 : Nat := 4294967296

/-- Left-rotation of a 32-bit word. -/
def rotl32 (x s : Nat) : Nat :=
  ((x * 2 ^ s) % mask32) + (x % mask32) / 2 ^ (32 - s)

/-- Bitwise complement of a 32-bit word. -/
def not32 (x : Nat) : Nat := x ^^^ (mask32 - 1)

/-- The MD5 sine-derived constant table `K` (RFC 1321). -/
def md5K : List Nat :=
  [3614090360, 3905402710, 606105819, 3250441966,
   4118548399, 1200080426, 2821735955, 4249261313,
   1770035416, 2336552879, 4294925233, 2304563134,
   1804603682, 4254626195, 2792965006, 1236535329,
   4129170786, 3225465664, 643717713, 3921069994,
   3593408605, 38016083, 3634488961, 3889429448,
   568446438, 3275163606, 4107603335, 1163531501,
   2850285829, 4243563512, 1735328473, 2368359562,
   4294588738, 2272392833, 1839030562, 4259657740,
   2763975236, 1272893353, 4139469664, 3200236656,
   681279174, 3936430074, 3572445317, 76029189,
   3654602809, 3873151461, 530742520, 3299628645,
   4096336452, 1126891415, 2878612391, 4237533241,
   1700485571, 2399980690, 4293915773, 2240044497,
   1873313359, 4264355552, 2734768916, 1309151649,
   4149444226, 3174756917, 718787259, 3951481745]

/-- The MD5 per-round shift table `s` (RFC 1321). -/
def md5S : List Nat :=
  [7, 12, 17, 22, 7, 12, 17, 22, 7, 12, 17, 22, 7, 12, 17, 22,
   5, 9, 14, 20, 5, 9, 14, 20, 5, 9, 14, 20, 5, 9, 14, 20,
   4, 11, 16, 23, 4, 11, 16, 23, 4, 11, 16, 23, 4, 11, 16, 23,
   6, 10, 15, 21, 6, 10, 15, 21, 6, 10, 15, 21, 6, 10, 15, 21]

/-- `v` as `k` little-endian bytes. -/
def natToBytesLE : Nat → Nat → List Nat
  | 0, _ => []
  | k + 1, v => v % 256 :: natToBytesLE k (v / 256)

/-- The sixteen little-endian 32-bit words of one 64-byte block. -/
def blockWords (block : List Nat) : List Nat :=
  (List.range 16).map (fun j =>
    block.getD (4 * j) 0 + 256 * block.getD (4 * j + 1) 0
      + 65536 * block.getD (4 * j + 2) 0 + 16777216 * block.getD (4 * j + 3) 0)

/-- One of the 64 MD5 rounds on state `(A, B, C, D)` with message words `M`. -/
def md5Round (M : List Nat) (st : Nat × Nat × Nat × Nat) (i : Nat) :
    Nat × Nat × Nat × Nat :=
  let (A, B, C, D) := st
  let fg :=
    if i < 16 then ((B &&& C) ||| (not32 B &&& D), i)
    else if i < 32 then ((D &&& B) ||| (not32 D &&& C), (5 * i + 1) % 16)
    else if i < 48 then (B ^^^ C ^^^ D, (3 * i + 5) % 16)
    else (C ^^^ (B ||| not32 D), (7 * i) % 16)
  let f := (fg.1 + A + md5K.getD i 0 + M.getD fg.2 0) % mask32
  (D, (B + rotl32 f (md5S.getD i 0)) % mask32, B, C)

/-- MD5 compression of one 64-byte block into the running state. -/
def md5Block (st : Nat × Nat × Nat × Nat) (block : List Nat) :
    Nat × Nat × Nat × Nat :=
  let M := blockWords block
  let r := (List.range 64).foldl (md5Round M) st
  ((st.1 + r.1) % mask32, (st.2.1 + r.2.1) % mask32,
   (st.2.2.1 + r.2.2.1) % mask32, (st.2.2.2 + r.2.2.2) % mask32)

/-- Split a byte list into 64-byte blocks (fuel-driven; the fuel is the
length of the list, which bounds the number of blocks). -/
def toBlocks : Nat → List Nat → List (List Nat)
  | 0, _ => []
  | _ + 1, [] => []
  | fuel + 1, l => l.take 64 :: toBlocks fuel (l.drop 64)

/-- MD5 padding: `0x80`, zeros to 56 mod 64, then the bit length as eight
little-endian bytes. -/
def md5Pad (msg : List Nat) : List Nat :=
  msg ++ 128 :: List.replicate ((119 - msg.length % 64) % 64) 0
    ++ natToBytesLE 8 ((8 * msg.length) % 2 ^ 64)

/-- The sixteen MD5 digest bytes of a byte message. -/
def md5Bytes (msg : List Nat) : List Nat :=
  let padded := md5Pad msg
  let st := (toBlocks padded.length padded).foldl md5Block
    (1732584193, 4023233417, 2562383102, 271733878)
  natToBytesLE 4 st.1 ++ natToBytesLE 4 st.2.1
    ++ natToBytesLE 4 st.2.2.1 ++ natToBytesLE 4 st.2.2.2

/-- One lowercase hexadecimal digit. -/
def hexDigit (v : Nat) : Char :=
  if v < 10 then Char.ofNat (48 + v) else Char.ofNat (87 + v)

/-- Two lowercase hexadecimal characters of one byte, high nibble first. -/
def byteToHex (b : Nat) : Str :=
  [hexDigit (b / 16 % 16), hexDigit (b % 16)]

/-- `hashlib.md5(bytes).hexdigest()`. -/
def md5Hex (msg : List Nat) : Str :=
  (md5Bytes msg).flatMap byteToHex

/-- `_get_host_hash` (lines 41-43):
`hashlib.md5(base_url.encode()).hexdigest()[:8]`. -/
def getHostHash (base_url : Str) : Str :=
  (md5Hex (utf8Encode base_url)).take 8

/-! ## Theorems -/

/-- The three chained single-character replaces of `sanitize` are one
character-wise pass replacing `-`, ` ` and `/` with `_` and touching nothing
else. -/
theorem sanitize_eq_map (s : Str) :
    sanitize s = s.map (fun c => if c = '-' ∨ c = ' ' ∨ c = '/' then '_' else c) := by
  unfold sanitize pyReplaceChar
  simp only [List.map_map]
  congr 1
  funext c
  by_cases h1 : c = '-'
  · subst h1; decide
  · by_cases h2 : c = ' '
    · subst h2; decide
    · by_cases h3 : c = '/'
      · subst h3; decide
      · simp [Function.comp, h1, h2, h3]

/-- C1: `_build_stable_unique_id` returns exactly
`entry_{entry_id}_endpoint_{endpoint_id}_{sanitize(base)}_{suffix}`, where the
sanitization replaces each occurrence of `-`, ` ` and `/` with `_` and
performs no other normalization (a single character-wise map), and the
function is deterministic: equal input tuples yield equal strings. -/
theorem C1_build_unique_id_shape (e ep cn : Str) (si : StackInfo) (sfx : Str) :
    buildStableUniqueId e ep cn si sfx
      = "entry_".toList ++ e ++ "_endpoint_".toList ++ ep ++ "_".toList
        ++ (deriveBaseName si cn).map
            (fun c => if c = '-' ∨ c = ' ' ∨ c = '/' then '_' else c)
        ++ "_".toList ++ sfx
    ∧ (∀ e' ep' cn' si' sfx', e = e' → ep = ep' → cn = cn' → si = si' → sfx = sfx' →
        buildStableUniqueId e ep cn si sfx = buildStableUniqueId e' ep' cn' si' sfx') := by
  constructor
  · unfold buildStableUniqueId
    rw [sanitize_eq_map]
  · intro e' ep' cn' si' sfx' h1 h2 h3 h4 h5
    subst h1; subst h2; subst h3; subst h4; subst h5
    rfl

/-- Witness for C1 at a concrete input containing all three sanitized
characters. -/
theorem C1_witness :
    buildStableUniqueId "E".toList "1".toList "a-b c/d".toList
        ⟨false, none, none⟩ "status".toList
      = buildStableUniqueId "E".toList "1".toList "a-b c/d".toList
        ⟨false, none, none⟩ "status".toList
    ∧ buildStableUniqueId "E".toList "1".toList "a-b c/d".toList
        ⟨false, none, none⟩ "status".toList
      = "entry_E_endpoint_1_a_b_c_d_status".toList := by
  refine ⟨(C1_build_unique_id_shape "E".toList "1".toList "a-b c/d".toList
    ⟨false, none, none⟩ "status".toList).2 _ _ _ _ _ rfl rfl rfl rfl rfl, ?_⟩
  decide

/-- C5: `derive_base_name` is `stack_name ++ "_" ++ service_name` for a stack
member, falls back to the container name when the service name is missing,
and is the container name unchanged for a non-member. -/
theorem C5_derive_base_name (si : StackInfo) (cn : Str) :
    (∀ sn sv, si.is_stack_container = true → si.stack_name = some sn →
        si.service_name = some sv →
        deriveBaseName si cn = sn ++ "_".toList ++ sv)
    ∧ (∀ sn, si.is_stack_container = true → si.stack_name = some sn →
        si.service_name = none →
        deriveBaseName si cn = sn ++ "_".toList ++ cn)
    ∧ (si.is_stack_container = false → deriveBaseName si cn = cn) := by
  refine ⟨?_, ?_, ?_⟩
  · intro sn sv h1 h2 h3; simp [deriveBaseName, h1, h2, h3]
  · intro sn h1 h2 h3; simp [deriveBaseName, h1, h2, h3]
  · intro h1; simp [deriveBaseName, h1]

/-- Witness for C5: all three clauses at concrete stack infos. -/
theorem C5_witness :
    deriveBaseName ⟨true, some "myapp".toList, some "db".toList⟩ "x".toList
      = "myapp".toList ++ "_".toList ++ "db".toList
    ∧ deriveBaseName ⟨true, some "myapp".toList, none⟩ "x".toList
      = "myapp".toList ++ "_".toList ++ "x".toList
    ∧ deriveBaseName ⟨false, none, none⟩ "web".toList = "web".toList :=
  ⟨(C5_derive_base_name ⟨true, some "myapp".toList, some "db".toList⟩ "x".toList).1
      _ _ rfl rfl rfl,
   (C5_derive_base_name ⟨true, some "myapp".toList, none⟩ "x".toList).2.1
      _ rfl rfl rfl,
   (C5_derive_base_name ⟨false, none, none⟩ "web".toList).2.2 rfl⟩

/-- C2: for a stack-member container the derived unique id never reads the
physical instance id: two containers that differ only in `Id` (same names,
same stack info) get the same unique id; and when the service name is
present, even the container names are irrelevant, so recreation with a fresh
id and name but the same stack and service labels keeps the unique id. -/
theorem C2_stack_uid_instance_independent (e ep sfx : Str) (si : StackInfo)
    (c1 c2 : Container) :
    (si.is_stack_container = true → c1.Names = c2.Names →
        uniqueIdForContainer e ep c1 si sfx = uniqueIdForContainer e ep c2 si sfx)
    ∧ (∀ sv, si.is_stack_container = true → si.service_name = some sv →
        uniqueIdForContainer e ep c1 si sfx = uniqueIdForContainer e ep c2 si sfx) := by
  constructor
  · intro _ h
    unfold uniqueIdForContainer
    rw [h]
  · intro sv hs hv
    unfold uniqueIdForContainer buildStableUniqueId deriveBaseName
    simp [hs, hv]

/-- Witness for C2: recreating `myapp/db` under a new id (and even a new
generated name) keeps the unique id. -/
theorem C2_witness :
    uniqueIdForContainer "E".toList "1".toList
        ⟨some "abc123".toList, ["/myapp-db-1".toList], []⟩
        ⟨true, some "myapp".toList, some "db".toList⟩ "status".toList
      = uniqueIdForContainer "E".toList "1".toList
        ⟨some "def456".toList, ["/myapp-db-2".toList], []⟩
        ⟨true, some "myapp".toList, some "db".toList⟩ "status".toList :=
  (C2_stack_uid_instance_independent "E".toList "1".toList "status".toList
      ⟨true, some "myapp".toList, some "db".toList⟩
      ⟨some "abc123".toList, ["/myapp-db-1".toList], []⟩
      ⟨some "def456".toList, ["/myapp-db-2".toList], []⟩).2
    "db".toList rfl rfl

/-- C3: when the live list holds a (first) label-matching instance and a
different name-matching instance, the stack-scoped resolver returns the
label match's id, never the name match's id. -/
theorem C3_label_match_preferred (si : StackInfo) (name : Str)
    (containers : List Container) (cL cN : Container)
    (hstack : si.is_stack_container = true)
    (hfind : containers.find? (labelMatchB si) = some cL)
    (hmem : cN ∈ containers) (hname : nameMatchB name cN = true)
    (hid : cN.Id ≠ cL.Id) :
    findCurrentContainerId si name (.ok containers) = cL.Id
    ∧ findCurrentContainerId si name (.ok containers) ≠ cN.Id := by
  have hne : containers ≠ [] := by
    rintro rfl
    simp at hfind
  have h1 : findCurrentContainerId si name (.ok containers) = cL.Id := by
    simp [findCurrentContainerId, hne, hstack, hfind]
  exact ⟨h1, by rw [h1]; exact fun h => hid h.symm⟩

/-- Witness for C3: spec scenario 2 — stack `myapp`, service `db`, with an
unrelated container literally named `myapp_db` listed first. -/
theorem C3_witness :
    findCurrentContainerId ⟨true, some "myapp".toList, some "db".toList⟩
        "myapp_db".toList
        (.ok [⟨some "idN".toList, ["/myapp_db".toList], []⟩,
              ⟨some "idL".toList, ["/myapp-db-1".toList],
               [("com.docker.compose.project".toList, "myapp".toList),
                ("com.docker.compose.service".toList, "db".toList)]⟩])
      = some "idL".toList
    ∧ findCurrentContainerId ⟨true, some "myapp".toList, some "db".toList⟩
        "myapp_db".toList
        (.ok [⟨some "idN".toList, ["/myapp_db".toList], []⟩,
              ⟨some "idL".toList, ["/myapp-db-1".toList],
               [("com.docker.compose.project".toList, "myapp".toList),
                ("com.docker.compose.service".toList, "db".toList)]⟩])
      ≠ some "idN".toList :=
  C3_label_match_preferred ⟨true, some "myapp".toList, some "db".toList⟩
    "myapp_db".toList
    [⟨some "idN".toList, ["/myapp_db".toList], []⟩,
     ⟨some "idL".toList, ["/myapp-db-1".toList],
      [("com.docker.compose.project".toList, "myapp".toList),
       ("com.docker.compose.service".toList, "db".toList)]⟩]
    ⟨some "idL".toList, ["/myapp-db-1".toList],
     [("com.docker.compose.project".toList, "myapp".toList),
      ("com.docker.compose.service".toList, "db".toList)]⟩
    ⟨some "idN".toList, ["/myapp_db".toList], []⟩
    rfl (by decide) (by decide) (by decide) (by decide)

/-- C4 fails on the code: for a stack-scoped identity with no label match in
the live list, `_find_current_container_id` does NOT find nothing — the name
loop is not guarded by an `else`, so it falls back to a coincidental name
match and returns its id. -/
theorem C4_counterexample :
    (⟨true, some "myapp".toList, some "db".toList⟩ : StackInfo).is_stack_container = true
    ∧ (∀ c ∈ [(⟨some "c9".toList, ["/web".toList], []⟩ : Container)],
        labelMatchB ⟨true, some "myapp".toList, some "db".toList⟩ c = false)
    ∧ findCurrentContainerId ⟨true, some "myapp".toList, some "db".toList⟩
        "web".toList (.ok [⟨some "c9".toList, ["/web".toList], []⟩])
      = some "c9".toList := by
  decide

/-- C4 amended: for a stack-scoped identity, when no live instance matches
both labels the resolver falls back to the name search and returns the id of
the first instance whose first name (leading `/` stripped) equals the
entity's container name — only when neither search matches does it find no
instance. -/
theorem C4_amended_name_fallback (si : StackInfo) (name : Str)
    (containers : List Container)
    (hstack : si.is_stack_container = true)
    (hnolabel : ∀ c ∈ containers, labelMatchB si c = false) :
    findCurrentContainerId si name (.ok containers)
      = (containers.find? (nameMatchB name)).bind (fun c => c.Id) := by
  have hfind : containers.find? (labelMatchB si) = none := by
    rw [List.find?_eq_none]
    intro c hc
    simp [hnolabel c hc]
  by_cases hne : containers = []
  · subst hne
    simp [findCurrentContainerId]
  · simp [findCurrentContainerId, hne, hstack, hfind]

/-- Witness for C4's amended claim: the fallback fires on a concrete
label-less list. -/
theorem C4_amended_witness :
    findCurrentContainerId ⟨true, some "myapp".toList, some "db".toList⟩
        "web".toList (.ok [⟨some "c9".toList, ["/web".toList], []⟩])
      = (([⟨some "c9".toList, ["/web".toList], []⟩] : List Container).find?
          (nameMatchB "web".toList)).bind (fun c => c.Id) :=
  C4_amended_name_fallback ⟨true, some "myapp".toList, some "db".toList⟩
    "web".toList [⟨some "c9".toList, ["/web".toList], []⟩]
    rfl (by decide)

/-- C8: whenever the resolver succeeds for a standalone (non-stack) entity,
the returned id is the id of a listed instance whose first name with leading
`/` stripped equals the entity's container name. -/
theorem C8_standalone_binds_by_name (si : StackInfo) (name : Str)
    (containers : List Container) (cid : Str)
    (hstand : si.is_stack_container = false)
    (hres : findCurrentContainerId si name (.ok containers) = some cid) :
    ∃ c ∈ containers,
      (∃ n ns, c.Names = n :: ns ∧ pyStrip '/' n = name) ∧ c.Id = some cid := by
  by_cases hne : containers = []
  · subst hne
    simp [findCurrentContainerId] at hres
  · simp only [findCurrentContainerId, if_neg hne, hstand, Bool.false_eq_true,
      if_false] at hres
    cases hfound : containers.find? (nameMatchB name) with
    | none =>
      rw [hfound] at hres
      simp at hres
    | some c =>
      rw [hfound] at hres
      simp only [Option.some_bind] at hres
      have hmem := List.mem_of_find?_eq_some hfound
      have hp := List.find?_some hfound
      refine ⟨c, hmem, ?_, hres⟩
      unfold nameMatchB at hp
      cases hN : c.Names with
      | nil =>
        rw [hN] at hp
        simp at hp
      | cons n ns =>
        rw [hN] at hp
        simp only [decide_eq_true_eq] at hp
        exact ⟨n, ns, rfl, hp⟩

/-- Witness for C8: spec scenario 1 — standalone `web` recreated as
`def456`. -/
theorem C8_witness :
    ∃ c ∈ [(⟨some "def456".toList, ["/web".toList], []⟩ : Container)],
      (∃ n ns, c.Names = n :: ns ∧ pyStrip '/' n = "web".toList)
      ∧ c.Id = some "def456".toList :=
  C8_standalone_binds_by_name ⟨false, none, none⟩ "web".toList
    [⟨some "def456".toList, ["/web".toList], []⟩] "def456".toList
    rfl (by decide)

/-- Case analysis of the shared re-resolution step: it either leaves the
state unchanged, or the resolver found a truthy id different from the current
one and only `container_id` was overwritten. -/
theorem resolveStep_spec (st : SensorState) (l : ApiList) :
    resolveStep st l = st ∨
      ∃ nid, findCurrentContainerId st.stack_info st.container_name l = some nid
        ∧ nid ≠ [] ∧ nid ≠ st.container_id
        ∧ resolveStep st l = { st with container_id := nid } := by
  rcases h : findCurrentContainerId st.stack_info st.container_name l with _ | nid
  · left
    simp [resolveStep, h]
  · by_cases hc : nid ≠ [] ∧ nid ≠ st.container_id
    · right
      exact ⟨nid, rfl, hc.1, hc.2, by simp [resolveStep, h, hc]⟩
    · left
      simp [resolveStep, h, hc]

/-- C9: `_ensure_container_bound` mutates only `_container_id`; it changes it
only when the direct lookup raised or returned no descriptor with a truthy
`Id` AND re-resolution found a (truthy) different id; when the direct lookup
succeeds there is no action at all; and when re-resolution finds nothing the
stale id is kept. -/
theorem C9_ensure_bound_frame (st : SensorState) (i : ApiInfo) (l : ApiList) :
    ((ensureContainerBound st i l).container_name = st.container_name
      ∧ (ensureContainerBound st i l).endpoint_id = st.endpoint_id
      ∧ (ensureContainerBound st i l).stack_info = st.stack_info
      ∧ (ensureContainerBound st i l).entry_id = st.entry_id
      ∧ (ensureContainerBound st i l).attr_unique_id = st.attr_unique_id
      ∧ (ensureContainerBound st i l).sensor_state = st.sensor_state)
    ∧ (∀ info, i = .ok info → infoLacksId info = false →
        ensureContainerBound st i l = st)
    ∧ ((ensureContainerBound st i l).container_id ≠ st.container_id →
        (i = .err ∨ ∃ info, i = .ok info ∧ infoLacksId info = true)
        ∧ findCurrentContainerId st.stack_info st.container_name l
            = some (ensureContainerBound st i l).container_id)
    ∧ (findCurrentContainerId st.stack_info st.container_name l = none →
        (ensureContainerBound st i l).container_id = st.container_id) := by
  have hens : ensureContainerBound st i l = st ∨
      ((i = .err ∨ ∃ info, i = .ok info ∧ infoLacksId info = true)
        ∧ ensureContainerBound st i l = resolveStep st l) := by
    cases i with
    | err => exact Or.inr ⟨Or.inl rfl, rfl⟩
    | ok info =>
      by_cases hl : infoLacksId info = true
      · exact Or.inr ⟨Or.inr ⟨info, rfl, hl⟩, by simp [ensureContainerBound, hl]⟩
      · left
        simp [ensureContainerBound, hl]
  have hcases : ensureContainerBound st i l = st ∨
      ((i = .err ∨ ∃ info, i = .ok info ∧ infoLacksId info = true)
        ∧ ∃ nid, findCurrentContainerId st.stack_info st.container_name l = some nid
            ∧ nid ≠ [] ∧ nid ≠ st.container_id
            ∧ ensureContainerBound st i l = { st with container_id := nid }) := by
    rcases hens with h | ⟨hcond, heq⟩
    · exact Or.inl h
    · rcases resolveStep_spec st l with h2 | ⟨nid, hf, h1, h2', h3⟩
      · exact Or.inl (heq.trans h2)
      · exact Or.inr ⟨hcond, nid, hf, h1, h2', heq.trans h3⟩
  refine ⟨?_, ?_, ?_, ?_⟩
  · rcases hcases with h | ⟨_, nid, _, _, _, h⟩ <;> rw [h] <;>
      exact ⟨rfl, rfl, rfl, rfl, rfl, rfl⟩
  · intro info hi hfalse
    subst hi
    simp [ensureContainerBound, hfalse]
  · intro hch
    rcases hcases with h | ⟨hcond, nid, hf, _, _, h⟩
    · rw [h] at hch
      exact absurd rfl hch
    · refine ⟨hcond, ?_⟩
      rw [h]
      simpa using hf
  · intro hnone
    rcases hcases with h | ⟨_, nid, hf, _, _, _⟩
    · rw [h]
    · rw [hnone] at hf
      exact Option.noConfusion hf

/-- Witness for C9: a successful direct lookup is a no-op, and even a doubly
failing refresh keeps every other field. -/
theorem C9_witness :
    ensureContainerBound
        ⟨"web".toList, "abc".toList, "1".toList, ⟨false, none, none⟩,
         "E".toList, "u".toList, .unknown⟩
        (.ok (some ⟨some "abc".toList, none⟩)) .err
      = ⟨"web".toList, "abc".toList, "1".toList, ⟨false, none, none⟩,
         "E".toList, "u".toList, .unknown⟩
    ∧ (ensureContainerBound
        ⟨"web".toList, "abc".toList, "1".toList, ⟨false, none, none⟩,
         "E".toList, "u".toList, .unknown⟩ .err .err).sensor_state
      = PyVal.unknown :=
  ⟨(C9_ensure_bound_frame
      ⟨"web".toList, "abc".toList, "1".toList, ⟨false, none, none⟩,
       "E".toList, "u".toList, .unknown⟩
      (.ok (some ⟨some "abc".toList, none⟩)) .err).2.1
      (some ⟨some "abc".toList, none⟩) rfl (by decide),
   (C9_ensure_bound_frame
      ⟨"web".toList, "abc".toList, "1".toList, ⟨false, none, none⟩,
       "E".toList, "u".toList, .unknown⟩ .err .err).1.2.2.2.2.2⟩

/-- C7: the fail-soft contracts — a raising client makes binding resolution
report "not found" instead of propagating; `_ensure_container_bound` absorbs
a doubly raising client with no state change; the status and CPU refreshes
set `STATE_UNKNOWN` on a raising client, a missing descriptor, or missing
stats keys; and a migration candidate whose lookup finds nothing, or whose
rewrite would collide, is skipped while the pass continues with the remaining
candidates. -/
theorem C7_fail_soft :
    (∀ si n, findCurrentContainerId si n .err = none)
    ∧ (∀ st, ensureContainerBound st .err .err = st)
    ∧ (∀ st i l, (statusAsyncUpdate st i l .err).sensor_state = .unknown
        ∧ (statusAsyncUpdate st i l (.ok none)).sensor_state = .unknown)
    ∧ (∀ st i l, (cpuAsyncUpdate st i l .err).sensor_state = .unknown
        ∧ (cpuAsyncUpdate st i l (.ok none)).sensor_state = .unknown
        ∧ ∀ s, s.cpu_stats = none →
            (cpuAsyncUpdate st i l (.ok (some s))).sensor_state = .unknown)
    ∧ (∀ (reg : List RegRecord) (o n : Str) (rest : List (Str × Str)),
        reg.find? (fun r => decide (r.unique_id = o)) = none →
        migrate reg ((o, n) :: rest) = migrate reg rest)
    ∧ (∀ (reg : List RegRecord) (o n : Str) (rest : List (Str × Str)),
        o ≠ n → reg.any (fun r => decide (r.unique_id = n)) = true →
        migrate reg ((o, n) :: rest) = migrate reg rest) := by
  refine ⟨fun si n => rfl, fun st => rfl, fun st i l => ⟨rfl, rfl⟩, ?_, ?_, ?_⟩
  · intro st i l
    refine ⟨rfl, rfl, ?_⟩
    intro s hs
    simp [cpuAsyncUpdate, cpuComputedState, hs]
  · intro reg o n rest hfind
    have hstep : migrateStep reg (o, n) = reg := by
      unfold migrateStep
      by_cases h12 : o = n
      · simp [h12]
      · simp [h12, hfind]
    unfold migrate
    rw [List.foldl_cons, hstep]
  · intro reg o n rest h12 hany
    have hstep : migrateStep reg (o, n) = reg := by
      unfold migrateStep
      rw [if_neg h12]
      cases hf : reg.find? (fun r => decide (r.unique_id = o)) with
      | none => simp [hf]
      | some r => simp [hf, hany]
    unfold migrate
    rw [List.foldl_cons, hstep]

/-- Witness for C7: the raising-client and rewrite-conflict clauses at
concrete inputs. -/
theorem C7_witness :
    findCurrentContainerId ⟨false, none, none⟩ "web".toList .err = none
    ∧ migrate [⟨"u".toList, "a".toList⟩] [("x".toList, "u".toList)]
        = migrate [⟨"u".toList, "a".toList⟩] [] :=
  ⟨C7_fail_soft.1 ⟨false, none, none⟩ "web".toList,
   C7_fail_soft.2.2.2.2.2 [⟨"u".toList, "a".toList⟩] "x".toList "u".toList []
     (by decide) (by decide)⟩

/-- A record with an identifier other than the rewritten one survives
`rewriteFirst` untouched. -/
theorem occ_rewriteFirst (o n u : Str) (reg : List RegRecord) (hu : u ≠ o)
    (h : occ reg u) : occ (rewriteFirst o n reg) u := by
  induction reg with
  | nil =>
    rcases h with ⟨r, hr, _⟩
    cases hr
  | cons r rs ih =>
    rcases h with ⟨r', hr', hu'⟩
    by_cases hro : r.unique_id = o
    · simp only [rewriteFirst, if_pos hro]
      rcases List.mem_cons.mp hr' with h1 | h1
      · exact absurd ((h1 ▸ hu').symm.trans hro) hu
      · exact ⟨r', List.mem_cons_of_mem _ h1, hu'⟩
    · simp only [rewriteFirst, if_neg hro]
      rcases List.mem_cons.mp hr' with h1 | h1
      · exact ⟨r, List.mem_cons_self _ _, h1 ▸ hu'⟩
      · rcases ih ⟨r', h1, hu'⟩ with ⟨r'', hr'', hu''⟩
        exact ⟨r'', List.mem_cons_of_mem _ hr'', hu''⟩

/-- `rewriteFirst` creates no identifier other than the target one. -/
theorem occ_rewriteFirst_rev (o n u : Str) (reg : List RegRecord)
    (h : occ (rewriteFirst o n reg) u) : u = (n : Str) ∨ occ reg u := by
  induction reg with
  | nil =>
    rcases h with ⟨r, hr, _⟩
    cases hr
  | cons r rs ih =>
    by_cases hro : r.unique_id = o
    · simp only [rewriteFirst, if_pos hro] at h
      rcases h with ⟨r', hr', hu'⟩
      rcases List.mem_cons.mp hr' with h1 | h1
      · exact Or.inl ((h1 ▸ hu' : ({ r with unique_id := n } : RegRecord).unique_id = u)).symm
      · exact Or.inr ⟨r', List.mem_cons_of_mem _ h1, hu'⟩
    · simp only [rewriteFirst, if_neg hro] at h
      rcases h with ⟨r', hr', hu'⟩
      rcases List.mem_cons.mp hr' with h1 | h1
      · exact Or.inr ⟨r, List.mem_cons_self _ _, h1 ▸ hu'⟩
      · rcases ih ⟨r', h1, hu'⟩ with h2 | ⟨r'', hr'', hu''⟩
        · exact Or.inl h2
        · exact Or.inr ⟨r'', List.mem_cons_of_mem _ hr'', hu''⟩

/-- When some record carries the old identifier, `rewriteFirst` makes the new
identifier present. -/
theorem occ_rewriteFirst_new (o n : Str) (reg : List RegRecord)
    (h : occ reg o) : occ (rewriteFirst o n reg) n := by
  induction reg with
  | nil =>
    rcases h with ⟨r, hr, _⟩
    cases hr
  | cons r rs ih =>
    by_cases hro : r.unique_id = o
    · exact ⟨{ r with unique_id := n }, by simp [rewriteFirst, if_pos hro], rfl⟩
    · simp only [rewriteFirst, if_neg hro]
      rcases h with ⟨r', hr', hu'⟩
      rcases List.mem_cons.mp hr' with h1 | h1
      · exact absurd (h1 ▸ hu') hro
      · rcases ih ⟨r', h1, hu'⟩ with ⟨r'', hr'', hu''⟩
        exact ⟨r'', List.mem_cons_of_mem _ hr'', hu''⟩

/-- Exhaustive case analysis of one migration candidate: either the registry
is unchanged (equal identifiers, old absent, or new already present), or the
old identifier is present, the new absent, and the step is the in-place
rewrite. -/
theorem migrateStep_cases (reg : List RegRecord) (p : Str × Str) :
    (migrateStep reg p = reg ∧ (p.1 = p.2 ∨ ¬ occ reg p.1 ∨ occ reg p.2))
    ∨ (p.1 ≠ p.2 ∧ occ reg p.1 ∧ ¬ occ reg p.2
        ∧ migrateStep reg p = rewriteFirst p.1 p.2 reg) := by
  unfold migrateStep
  by_cases h12 : p.1 = p.2
  · left
    exact ⟨by rw [if_pos h12], Or.inl h12⟩
  · rw [if_neg h12]
    cases hf : reg.find? (fun r => decide (r.unique_id = p.1)) with
    | none =>
      left
      refine ⟨rfl, Or.inr (Or.inl ?_)⟩
      rintro ⟨r, hr, hu⟩
      exact (List.find?_eq_none.mp hf r hr) (decide_eq_true hu)
    | some r0 =>
      by_cases ha : reg.any (fun r => decide (r.unique_id = p.2)) = true
      · left
        refine ⟨by simp [ha], Or.inr (Or.inr ?_)⟩
        rcases List.any_eq_true.mp ha with ⟨r, hr, hu⟩
        exact ⟨r, hr, of_decide_eq_true hu⟩
      · right
        refine ⟨h12, ?_, ?_, by simp [ha]⟩
        · have hp := List.find?_some hf
          exact ⟨r0, List.mem_of_find?_eq_some hf, of_decide_eq_true hp⟩
        · rintro ⟨r, hr, hu⟩
          exact ha (List.any_eq_true.mpr ⟨r, hr, decide_eq_true hu⟩)

/-- A present identifier other than the candidate's old one survives the
candidate. -/
theorem occ_migrateStep (reg : List RegRecord) (p : Str × Str) (u : Str)
    (hu : u ≠ p.1) (h : occ reg u) : occ (migrateStep reg p) u := by
  rcases migrateStep_cases reg p with ⟨he, _⟩ | ⟨_, _, _, he⟩
  · rw [he]; exact h
  · rw [he]; exact occ_rewriteFirst _ _ _ _ hu h

/-- An absent identifier other than the candidate's new one stays absent. -/
theorem not_occ_migrateStep (reg : List RegRecord) (p : Str × Str) (u : Str)
    (hu : u ≠ p.2) (h : ¬ occ reg u) : ¬ occ (migrateStep reg p) u := by
  rcases migrateStep_cases reg p with ⟨he, _⟩ | ⟨_, _, _, he⟩
  · rw [he]; exact h
  · rw [he]
    intro h2
    rcases occ_rewriteFirst_rev _ _ _ _ h2 with h3 | h3
    · exact hu h3
    · exact h h3

/-- After its own step, a strict candidate leaves its old identifier absent
or its new identifier present. -/
theorem Q_after_step (reg : List RegRecord) (p : Str × Str) (h12 : p.1 ≠ p.2) :
    ¬ occ (migrateStep reg p) p.1 ∨ occ (migrateStep reg p) p.2 := by
  rcases migrateStep_cases reg p with ⟨he, hc⟩ | ⟨_, ho, _, he⟩
  · rw [he]
    rcases hc with h | h | h
    · exact absurd h h12
    · exact Or.inl h
    · exact Or.inr h
  · rw [he]
    exact Or.inr (occ_rewriteFirst_new _ _ _ ho)

/-- The absent-or-rewritten property of a candidate `p` is preserved by a
later candidate `q` that neither recreates `p`'s old identifier nor consumes
`p`'s new one. -/
theorem Q_preserved_step (reg : List RegRecord) (p q : Str × Str)
    (hA : q.1 = q.2 ∨ q.2 ≠ p.1) (hB : q.1 = q.2 ∨ p.2 ≠ q.1) :
    (¬ occ reg p.1 ∨ occ reg p.2) →
      (¬ occ (migrateStep reg q) p.1 ∨ occ (migrateStep reg q) p.2) := by
  intro hq
  by_cases h12 : q.1 = q.2
  · have he : migrateStep reg q = reg := by
      unfold migrateStep
      rw [if_pos h12]
    rw [he]
    exact hq
  · rcases hq with h | h
    · exact Or.inl (not_occ_migrateStep _ _ _ (Ne.symm (hA.resolve_left h12)) h)
    · exact Or.inr (occ_migrateStep _ _ _ (hB.resolve_left h12) h)

/-- The absent-or-rewritten property of a candidate survives a whole run of
non-interfering candidates. -/
theorem Q_preserved_run (rest : List (Str × Str)) (p : Str × Str) :
    ∀ reg, (∀ q ∈ rest, (q.1 = q.2 ∨ q.2 ≠ p.1) ∧ (q.1 = q.2 ∨ p.2 ≠ q.1)) →
      (¬ occ reg p.1 ∨ occ reg p.2) →
      (¬ occ (migrate reg rest) p.1 ∨ occ (migrate reg rest) p.2) := by
  induction rest with
  | nil =>
    intro reg _ h
    exact h
  | cons q rs ih =>
    intro reg hcond hq
    exact ih (migrateStep reg q)
      (fun r hr => hcond r (List.mem_cons_of_mem _ hr))
      (Q_preserved_step reg p q (hcond q (List.mem_cons_self _ _)).1
        (hcond q (List.mem_cons_self _ _)).2 hq)

/-- After a full non-interfering migration run, every strict candidate's old
identifier is absent or its new identifier is present. -/
theorem Q_final (pairs : List (Str × Str)) :
    ∀ reg, PairsDisjoint pairs → ∀ p ∈ pairs, p.1 ≠ p.2 →
      (¬ occ (migrate reg pairs) p.1 ∨ occ (migrate reg pairs) p.2) := by
  induction pairs with
  | nil =>
    intro reg _ p hp
    cases hp
  | cons q rest ih =>
    intro reg hD p hp h12
    rcases List.mem_cons.mp hp with h1 | h1
    · subst h1
      refine Q_preserved_run rest p (migrateStep reg p) ?_ (Q_after_step reg p h12)
      intro r hr
      constructor
      · by_cases hr12 : r.1 = r.2
        · exact Or.inl hr12
        · exact Or.inr (hD r (List.mem_cons_of_mem _ hr) p (List.mem_cons_self _ _) hr12)
      · exact Or.inr (hD p (List.mem_cons_self _ _) r (List.mem_cons_of_mem _ hr) h12)
    · exact ih (migrateStep reg q)
        (fun a ha b hb => hD a (List.mem_cons_of_mem _ ha) b (List.mem_cons_of_mem _ hb))
        p h1 h12

/-- A candidate whose old identifier is absent or whose new identifier is
present is a no-op. -/
theorem step_noop_of_Q (reg : List RegRecord) (p : Str × Str) (h12 : p.1 ≠ p.2)
    (hQ : ¬ occ reg p.1 ∨ occ reg p.2) : migrateStep reg p = reg := by
  unfold migrateStep
  rw [if_neg h12]
  cases hf : reg.find? (fun r => decide (r.unique_id = p.1)) with
  | none => rfl
  | some r =>
    have hp := List.find?_some hf
    have ho : occ reg p.1 :=
      ⟨r, List.mem_of_find?_eq_some hf, of_decide_eq_true hp⟩
    rcases hQ with h | h
    · exact absurd ho h
    · rcases h with ⟨r', hr', hu'⟩
      have ha : reg.any (fun r => decide (r.unique_id = p.2)) = true :=
        List.any_eq_true.mpr ⟨r', hr', decide_eq_true hu'⟩
      simp [ha]

/-- A run all of whose candidates are no-ops leaves the registry unchanged. -/
theorem migrate_noop (pairs : List (Str × Str)) :
    ∀ reg, (∀ p ∈ pairs, migrateStep reg p = reg) → migrate reg pairs = reg := by
  induction pairs with
  | nil =>
    intro reg _
    rfl
  | cons q rest ih =>
    intro reg h
    show migrate (migrateStep reg q) rest = reg
    rw [h q (List.mem_cons_self _ _)]
    exact ih reg (fun p hp => h p (List.mem_cons_of_mem _ hp))

/-- C6 fails on the code: with a registry in which one discovered container's
legacy identifier is held by one record while another record already holds
that container's new identifier — and a second container whose raw id equals
the first one's name — the first run's rewrite is blocked by a conflict that
the second run no longer sees, so the second run still changes the
registry. -/
theorem C6_counterexample :
    runMigration
        (runMigration
          [⟨"entry_E_endpoint_1_c1_status".toList, "A".toList⟩,
           ⟨"entry_E_endpoint_1_abc_status".toList, "B".toList⟩]
          "E".toList "1".toList
          [⟨"abc".toList, "c1".toList, ⟨false, none, none⟩⟩,
           ⟨"xyz".toList, "abc".toList, ⟨false, none, none⟩⟩])
        "E".toList "1".toList
        [⟨"abc".toList, "c1".toList, ⟨false, none, none⟩⟩,
         ⟨"xyz".toList, "abc".toList, ⟨false, none, none⟩⟩]
      ≠ runMigration
        [⟨"entry_E_endpoint_1_c1_status".toList, "A".toList⟩,
         ⟨"entry_E_endpoint_1_abc_status".toList, "B".toList⟩]
        "E".toList "1".toList
        [⟨"abc".toList, "c1".toList, ⟨false, none, none⟩⟩,
         ⟨"xyz".toList, "abc".toList, ⟨false, none, none⟩⟩] := by
  decide

/-- C6 amended: the migration pass is idempotent whenever its candidates do
not interfere — no processed candidate's new identifier equals any
candidate's old identifier (as holds when no raw container id coincides with
a sanitized base name).  Under that proviso the second run changes no
record. -/
theorem C6_amended_idempotent (reg : List RegRecord) (entry_id endpoint_id : Str)
    (items : List MigItem)
    (hD : PairsDisjoint (migrationPairs entry_id endpoint_id items)) :
    runMigration (runMigration reg entry_id endpoint_id items)
        entry_id endpoint_id items
      = runMigration reg entry_id endpoint_id items := by
  unfold runMigration
  apply migrate_noop
  intro p hp
  by_cases h12 : p.1 = p.2
  · unfold migrateStep
    rw [if_pos h12]
  · exact step_noop_of_Q _ p h12 (Q_final _ reg hD p hp h12)

/-- Witness for C6's amended claim: an ordinary single-container migration
(hex id, distinct name) is idempotent. -/
theorem C6_amended_witness :
    runMigration
        (runMigration [⟨"entry_E_endpoint_1_c1_status".toList, "A".toList⟩]
          "E".toList "1".toList
          [⟨"web".toList, "c1".toList, ⟨false, none, none⟩⟩])
        "E".toList "1".toList
        [⟨"web".toList, "c1".toList, ⟨false, none, none⟩⟩]
      = runMigration [⟨"entry_E_endpoint_1_c1_status".toList, "A".toList⟩]
          "E".toList "1".toList
          [⟨"web".toList, "c1".toList, ⟨false, none, none⟩⟩] :=
  C6_amended_idempotent [⟨"entry_E_endpoint_1_c1_status".toList, "A".toList⟩]
    "E".toList "1".toList [⟨"web".toList, "c1".toList, ⟨false, none, none⟩⟩]
    (by decide)

/-- `natToBytesLE` always produces exactly the requested number of bytes. -/
theorem natToBytesLE_length (k : Nat) : ∀ v, (natToBytesLE k v).length = k := by
  induction k with
  | zero =>
    intro v
    rfl
  | succ k ih =>
    intro v
    simp [natToBytesLE, ih]

/-- The MD5 digest has sixteen bytes. -/
theorem md5Bytes_length (msg : List Nat) : (md5Bytes msg).length = 16 := by
  simp [md5Bytes, natToBytesLE_length]

/-- Two hexadecimal characters per byte. -/
theorem flatMap_byteToHex_length (l : List Nat) :
    (l.flatMap byteToHex).length = 2 * l.length := by
  induction l with
  | nil => rfl
  | cons b bs ih =>
    rw [List.flatMap_cons, List.length_append, ih, List.length_cons]
    show 2 + 2 * bs.length = 2 * (bs.length + 1)
    omega

/-- The MD5 hex digest has thirty-two characters. -/
theorem md5Hex_length (msg : List Nat) : (md5Hex msg).length = 32 := by
  unfold md5Hex
  rw [flatMap_byteToHex_length, md5Bytes_length]

/-- `_get_host_hash` always returns eight characters. -/
theorem getHostHash_length (s : Str) : (getHostHash s).length = 8 := by
  unfold getHostHash
  rw [List.length_take, md5Hex_length]
  decide

/-- C10 fails on the code: the port loop keeps testing the remaining port
suffixes after a strip, so on `http://h:443:9000` it strips `:9000` and then
also `:443`, while the claim's "strips one known port from the end" leaves
`h:443`. -/
theorem C10_counterexample :
    getHostDisplayName "http://h:443:9000".toList = "h".toList
    ∧ claimHostDisplayName "http://h:443:9000".toList = "h:443".toList
    ∧ getHostDisplayName "http://h:443:9000".toList
        ≠ claimHostDisplayName "http://h:443:9000".toList := by
  decide

/-- C10 amended: the host display name strips the scheme, then strips known
ports from the end — at most one per port, tried in the fixed order `:9000`,
`:9443`, `:80`, `:443`, so more than one can be stripped — and returns the
first dot-separated label unless the remainder is a bare numeric/IP-like
string, in which case the whole remainder is returned; the two spec examples
hold; and the host hash is a deterministic 8-character digest of the full
original address. -/
theorem C10_amended_host_name_hash (url : Str) :
    getHostDisplayName url = amendedHostDisplayName url
    ∧ getHostDisplayName "https://192.168.1.10:9000/".toList = "192.168.1.10".toList
    ∧ getHostDisplayName "http://nas.home.local:9443".toList = "nas".toList
    ∧ (getHostHash url).length = 8
    ∧ (∀ url', url = url' → getHostHash url = getHostHash url') := by
  have hport : ∀ h, portStripLoop h = amendedPortStrip h := fun h => rfl
  refine ⟨?_, by decide, by decide, getHostHash_length url, ?_⟩
  · unfold getHostDisplayName amendedHostDisplayName
    rw [hport]
  · intro url' h
    rw [h]

/-- Witness for C10's amended claim: the determinism clause at the first spec
example. -/
theorem C10_amended_witness :
    getHostHash "https://192.168.1.10:9000/".toList
      = getHostHash "https://192.168.1.10:9000/".toList :=
  (C10_amended_host_name_hash "https://192.168.1.10:9000/".toList).2.2.2.2
    "https://192.168.1.10:9000/".toList rfl

end PortainerLink
